import Mathlib

/-!
Verification of the retrieval-and-generation (RAG) pipeline of the
`ai-workshop` repository, as a shallow embedding in Lean.

The embedding models the JavaScript service layer:
  * `OpenSearchVectorStore.similaritySearchWithScore` and
    `OpenSearchVectorStore.addDocuments` (OpenSearch vector store),
  * `RAGService.formatContext`, `RAGService.extractSources`,
    `RAGService.generateResponse`, `RAGService.askQuestion` and
    `RAGService.generateStreamingResponse`,
  * `LLMProviderService.getProvider`.

External collaborators (the OpenSearch client, the embedding provider, the
LangChain text splitter, the chat model and the wall clock) appear as
explicit parameters: the value a network call would return is passed in, and
the pure post-processing the repository performs on it is modelled exactly.
JavaScript numbers are modelled as rationals, JavaScript truthiness on
strings and numbers is modelled explicitly, and the distinction between
`undefined` and `null` (which matters for default parameters) is modelled by
the type `JsStr` below.
-/

namespace AiWorkshop

/-- Metadata object attached to a document; only the keys the pipeline reads
are tracked (`source` and `id`), each possibly absent. -/
structure Metadata where
  source : Option String := none
  id : Option String := none
deriving DecidableEq, Repr

/-- A LangChain `Document`: page content plus metadata. -/
structure Doc where
  pageContent : String
  metadata : Metadata
deriving DecidableEq, Repr

/-- One OpenSearch k-NN hit: `_source.content`, `_source.metadata`
(possibly absent) and `_score` (possibly absent). -/
structure Hit where
  content : String
  metadata : Option Metadata := none
  score : Option ℚ := none
deriving DecidableEq, Repr

/-- JavaScript `x || 0` on a possibly-absent number: absent and `0` are
falsy and give `0`; any other number is returned unchanged. -/
def jsOr0 (s : Option ℚ) : ℚ :=
  match s with
  | none => 0
  | some v => if v = 0 then 0 else v

/-- JavaScript `x || unknown-string` on a possibly-absent string: absent and
the empty string are falsy. Models `doc.metadata?.source || ...`. -/
def jsOrDefault (s : Option String) (d : String) : String :=
  match s with
  | none => d
  | some v => if v = "" then d else v

@[simp] theorem jsOr0_none : jsOr0 none = 0 := rfl

theorem jsOr0_some (v : ℚ) : jsOr0 (some v) = v := by
  unfold jsOr0
  by_cases h : v = 0
  · simp [h]
  · simp [h]

/-- `OpenSearchVectorStore.similaritySearchWithScore`, restricted to its pure
part: given the list of hits returned by the k-NN query, build one
`(Document, score)` pair per hit, in hit order, where the score is
`1 - (hit._score || 0)` (the similarity is flipped into a lower-is-better
distance-like value). -/
def similaritySearchWithScore (hits : List Hit) : List (Doc × ℚ) :=
  hits.map fun h => (⟨h.content, h.metadata.getD {}⟩, 1 - jsOr0 h.score)

/-- `RAGService.formatContext`: the empty-result sentinel, or the
source/relevance/content blocks joined by the delimiter. -/
def pad3 (n : Nat) : String :=
  let s := toString n
  if s.length = 1 then ("00") ++ s else if s.length = 2 then ("0") ++ s else s

/-- Model of the JavaScript `Number.prototype.toFixed(3)` used for the
relevance figure: round to the nearest thousandth (halves away from zero)
and print with exactly three decimals. -/
def toFixed3 (q : ℚ) : String :=
  let m := (⌊|q| * 1000 + 1 / 2⌋).toNat
  (if q < 0 then ("-") else ("")) ++ toString (m / 1000) ++ (".") ++ pad3 (m % 1000)

/-- One formatted context block of `RAGService.formatContext`, in the shape
the specification describes. -/
def contextBlock (p : Doc × ℚ) : String :=
  ("Source: ") ++ jsOrDefault p.1.metadata.source ("unknown") ++
    (" (Relevance: ") ++ toFixed3 p.2 ++ (")\n") ++ p.1.pageContent

/-- `RAGService.formatContext`. -/
def formatContext (relevantDocs : List (Doc × ℚ)) : String :=
  if relevantDocs.length = 0 then
    ("No relevant context found in the knowledge base.")
  else
    String.intercalate ("\n\n---\n\n")
      (relevantDocs.map fun p =>
        ("Source: ") ++ jsOrDefault p.1.metadata.source ("unknown") ++
          (" (Relevance: ") ++ toFixed3 p.2 ++ (")\n") ++ p.1.pageContent)

/-- `RAGService.extractSources`: walk the results, inserting each truthy
`metadata.source` into an insertion-ordered set. -/
def extractSources (relevantDocs : List (Doc × ℚ)) : List String :=
  relevantDocs.foldl
    (fun acc p =>
      match p.1.metadata.source with
      | none => acc
      | some s => if s = "" then acc else if s ∈ acc then acc else acc ++ [s])
    []

/-! ## LLM provider registry and generation orchestration -/

/-- Errors thrown by the pipeline, with the message text the JavaScript code
interpolates. `searchError` stands for any error thrown by the vector
search, `providerNotAvailable` is the error thrown by
`LLMProviderService.getProvider`, and `generationError` stands for any error
thrown by the chat model. -/
inductive RagError where
  | searchError (message : String)
  | providerNotAvailable (name : String) (available : List String)
  | generationError (message : String)
deriving DecidableEq, Repr

/-- The `.message` of an error, as JavaScript would render it. -/
def RagError.message : RagError → String
  | .searchError m => m
  | .generationError m => m
  | .providerNotAvailable n avail =>
      ("LLM provider \x27") ++ n ++ ("\x27 not available. Available providers: ") ++
        String.intercalate (", ") avail

/-- Outcome of consuming a chat-model stream: the content fragments that
were delivered, then either normal completion or a thrown error. A `stream`
call that itself throws is the case `chunks = []`, `failure = some _`. -/
structure StreamSpec where
  chunks : List String
  failure : Option String
deriving DecidableEq, Repr

/-- A chat-model provider held in the registry. Its behaviour is a function
of the formatted context block and the question (the fixed prompt template
wrapping is elided: it is injective in these two inputs). -/
structure Provider where
  invoke : String → String → Except RagError String
  streamSpec : String → String → StreamSpec

/-- A JavaScript value that may be a string, `null`, or `undefined`. The
distinction matters: a default parameter value replaces `undefined` but not
`null`. -/
inductive JsStr where
  | undef
  | null
  | str (s : String)
deriving DecidableEq, Repr

/-- JavaScript string interpolation of a `JsStr`. -/
def JsStr.interp : JsStr → String
  | .undef => ("undefined")
  | .null => ("null")
  | .str s => s

/-- JavaScript `x || d` on a `JsStr`: `undefined`, `null` and the empty
string are falsy. -/
def JsStr.orDefault : JsStr → String → String
  | .str s, d => if s = "" then d else s
  | _, d => d

/-- `LLMProviderService`: the string-keyed provider map (insertion ordered)
plus the configured default provider name used by the `getProvider` default
parameter. -/
structure LLMProviderService where
  providers : List (String × Provider)
  defaultProvider : String

/-- `LLMProviderService.getAvailableProviders`. -/
def getAvailableProviders (svc : LLMProviderService) : List String :=
  svc.providers.map Prod.fst

/-- `LLMProviderService.getProvider(providerName = config.llm.defaultProvider)`:
the default applies only when the argument is `undefined`; the map lookup is
by string key, so a `null` argument never matches and the error message
interpolates it as the text `null`. -/
def getProvider (svc : LLMProviderService) (providerName : JsStr) : Except RagError Provider :=
  let arg := match providerName with
    | .undef => JsStr.str svc.defaultProvider
    | a => a
  let provider := match arg with
    | .str s => svc.providers.lookup s
    | _ => none
  match provider with
  | some p => Except.ok p
  | none => Except.error (RagError.providerNotAvailable arg.interp (getAvailableProviders svc))

/-- `providerName || llmProvider.getAvailableProviders()[0]`, the
`actualProvider` recorded in results and events. An empty registry indexes
out of bounds and gives `undefined`. -/
def actualProviderName (svc : LLMProviderService) (providerName : JsStr) : String :=
  providerName.orDefault ((getAvailableProviders svc).headD ("undefined"))

/-- The value `RAGService.generateResponse` resolves with (the timestamp,
an external clock read, is elided). -/
structure GenResult where
  response : String
  documentsUsed : Nat
  sources : List String
  relevanceScores : List (String × ℚ)
  question : String
  provider : String
deriving DecidableEq, Repr

/-- `RAGService.generateResponse`, restricted to its pure part: the outcome
of the vector search is passed in as `search`, and the chat model is the
provider found in the registry. The steps happen in source order: vector
search, context formatting, provider lookup, generation; an error at any
step rejects the whole call with that error. -/
def generateResponse (svc : LLMProviderService)
    (search : Except RagError (List (Doc × ℚ)))
    (question : String) (providerName : JsStr) : Except RagError GenResult :=
  match search with
  | .error e => .error e
  | .ok relevantDocs =>
    let formattedContext := formatContext relevantDocs
    match getProvider svc providerName with
    | .error e => .error e
    | .ok llm =>
      match llm.invoke formattedContext question with
      | .error e => .error e
      | .ok response =>
          .ok { response := response
              , documentsUsed := relevantDocs.length
              , sources := extractSources relevantDocs
              , relevanceScores :=
                  relevantDocs.map fun p => (jsOrDefault p.1.metadata.source ("unknown"), p.2)
              , question := question
              , provider := actualProviderName svc providerName }

/-- Options object of `RAGService.askQuestion`; `provider = none` models a
caller that omits the `provider` property (so destructuring applies the
default value `null`). -/
structure AskOptions where
  provider : Option String := none
  includeContext : Bool := false
deriving DecidableEq, Repr

/-- The value `RAGService.askQuestion` resolves with: the full result when
`includeContext` is set, else the simplified shape. -/
inductive AskAnswer where
  | full (r : GenResult)
  | simplified (response : String) (sources : List String) (provider : String)
deriving DecidableEq, Repr

/-- `RAGService.askQuestion`: destructure the options (defaulting the
provider to `null`, not to the configured default), delegate to
`generateResponse`, and wrap any error in a new
`Failed to generate response:` error. -/
def askQuestion (svc : LLMProviderService)
    (search : Except RagError (List (Doc × ℚ)))
    (question : String) (options : AskOptions) : Except String AskAnswer :=
  let providerArg : JsStr := match options.provider with
    | none => JsStr.null
    | some s => JsStr.str s
  match generateResponse svc search question providerArg with
  | .error e => .error (("Failed to generate response: ") ++ e.message)
  | .ok r =>
      .ok (if options.includeContext then AskAnswer.full r
           else AskAnswer.simplified r.response r.sources r.provider)

/-! ## Streaming generation -/

/-- Events yielded by `RAGService.generateStreamingResponse` (timestamps and
wall-clock durations elided). -/
inductive StreamEvent where
  | metadata (documentsUsed : Nat) (sources : List String) (provider : String)
  | content (data : String)
  | done (tokensGenerated : Nat)
  | error (message : String)
deriving DecidableEq, Repr

/-- Terminal events are `done` and `error`. -/
def StreamEvent.isTerminal : StreamEvent → Bool
  | .done _ => true
  | .error _ => true
  | _ => false

/-- Recognizer for the leading `metadata` event. -/
def StreamEvent.isMetadata : StreamEvent → Bool
  | .metadata _ _ _ => true
  | _ => false

/-- `RAGService.generateStreamingResponse` as the full event sequence the
async generator yields to a consumer that drains it: vector search, context
formatting and provider lookup happen before the `metadata` event, so an
error there is caught and yielded as a lone `error` event; afterwards the
delivered fragments are yielded (skipping falsy, i.e. empty, content) and
the sequence closes with `done` carrying the summed fragment length, or with
`error` if the model stream throws. -/
def generateStreamingResponse (svc : LLMProviderService)
    (search : Except RagError (List (Doc × ℚ)))
    (question : String) (providerName : JsStr) : List StreamEvent :=
  match search with
  | .error e => [StreamEvent.error e.message]
  | .ok relevantDocs =>
    let formattedContext := formatContext relevantDocs
    match getProvider svc providerName with
    | .error e => [StreamEvent.error e.message]
    | .ok llm =>
      let spec := llm.streamSpec formattedContext question
      let delivered := spec.chunks.filter fun c => c != ""
      StreamEvent.metadata relevantDocs.length (extractSources relevantDocs)
          (actualProviderName svc providerName)
        :: delivered.map StreamEvent.content
        ++ [match spec.failure with
            | some m => StreamEvent.error m
            | none => StreamEvent.done (delivered.map String.length).sum]

/-! ## Ingestion: `OpenSearchVectorStore.addDocuments` -/

/-- Metadata attached to one chunk record: the parent document metadata
spread first, then the four chunk-specific fields. -/
structure ChunkMeta where
  base : Metadata
  chunk_index : Nat
  chunk_total : Nat
  chunk_size : Nat
  document_id : String
deriving DecidableEq, Repr

/-- One chunk `Document` pushed onto `processedDocs`. -/
structure ChunkDoc where
  pageContent : String
  metadata : ChunkMeta
deriving DecidableEq, Repr

/-- The fallback document id the code builds when `doc.metadata.id` is
falsy: the template `doc-${Date.now()}-${index}` with the clock reading
passed in as `now`. Note that it interpolates the chunk index. -/
def fallbackDocId (now index : Nat) : String :=
  ("doc-") ++ toString now ++ ("-") ++ toString index

/-- The inner loop of `addDocuments` for one document: split the text with
the (external) text splitter and build one chunk record per chunk, with
`chunk_index` the loop counter, `chunk_total` the number of chunks, and
`document_id` the metadata id or, when that is falsy, the fallback. -/
def chunkDocsFor (split : String → List String) (now : Nat) (doc : Doc) : List ChunkDoc :=
  let textChunks := split doc.pageContent
  textChunks.enum.map fun iChunk =>
    { pageContent := iChunk.2
    , metadata :=
      { base := doc.metadata
      , chunk_index := iChunk.1
      , chunk_total := textChunks.length
      , chunk_size := iChunk.2.length
      , document_id :=
          match doc.metadata.id with
          | none => fallbackDocId now iChunk.1
          | some i => if i = "" then fallbackDocId now iChunk.1 else i } }

/-- The `processedDocs` array `addDocuments` accumulates: the chunk records
of each input document, in document order. -/
def processedDocsOf (split : String → List String) (now : Nat) (docs : List Doc) : List ChunkDoc :=
  (docs.map (chunkDocsFor split now)).flatten

/-- One line of the OpenSearch `bulk` request body: an index action or a
document payload (timestamp elided). -/
structure BulkPayload where
  content : String
  embedding : List ℚ
  metadata : ChunkMeta
deriving DecidableEq, Repr

/-- Alternating action/payload lines of the bulk body. -/
inductive BulkLine where
  | action (indexName : String)
  | payload (p : BulkPayload)
deriving DecidableEq, Repr

/-- The `bulkBody` array: for each processed chunk, an action line followed
by a payload line carrying the (externally computed) embedding. -/
def bulkBodyOf (embed : String → List ℚ) (indexName : String)
    (processed : List ChunkDoc) : List BulkLine :=
  (processed.map fun d =>
    [BulkLine.action indexName, BulkLine.payload ⟨d.pageContent, embed d.pageContent, d.metadata⟩]).flatten

/-- One item of the bulk response, as the code reads it: the status and the
error of its single operation. -/
structure BulkItem where
  status : Nat
  error : Option String
deriving DecidableEq, Repr

/-- The bulk response body: the `errors` flag and the per-record items. -/
structure BulkResponse where
  errors : Bool
  items : List BulkItem
deriving DecidableEq, Repr

/-- One entry of the `erroredDocuments` list the code assembles for
logging: status, error, and `bulkBody[i * 2 + 1]` (the payload line of the
failed record; out-of-range indexing gives `undefined`, hence `Option`). -/
structure ErroredDoc where
  status : Nat
  error : String
  document : Option BulkLine
deriving DecidableEq, Repr

/-- The `erroredDocuments` accumulation over `response.body.items`. -/
def erroredDocumentsOf (resp : BulkResponse) (bulkBody : List BulkLine) : List ErroredDoc :=
  resp.items.enum.filterMap fun it =>
    match it.2.error with
    | some e => some ⟨it.2.status, e, bulkBody[it.1 * 2 + 1]?⟩
    | none => none

/-- The observable outcome of `addDocuments`: the value it returns, and the
error list it hands to the logger (an external collaborator). -/
structure AddDocsOutcome where
  returned : Nat
  loggedErrors : List ErroredDoc
deriving DecidableEq, Repr

/-- `OpenSearchVectorStore.addDocuments`, restricted to its pure part: the
text splitter, the clock, the embedding provider and the bulk response are
passed in. The bulk call happens only when `bulkBody` is nonempty; the
errored documents are assembled only when the response `errors` flag is set,
and go to the logger; the function returns `processedDocs.length`. -/
def addDocuments (split : String → List String) (now : Nat)
    (embed : String → List ℚ) (indexName : String)
    (docs : List Doc) (resp : BulkResponse) : AddDocsOutcome :=
  let processed := processedDocsOf split now docs
  let bulkBody := bulkBodyOf embed indexName processed
  if 0 < bulkBody.length then
    { returned := processed.length
    , loggedErrors := if resp.errors then erroredDocumentsOf resp bulkBody else [] }
  else
    { returned := processed.length, loggedErrors := [] }

/-! ## Concrete fixtures used by witnesses and counterexamples -/

/-- A concrete provider: answers deterministically from the context block,
and streams three fragments (one of them empty, hence skipped). -/
def p0 : Provider :=
  { invoke := fun ctx _q => Except.ok (("ANSWER[") ++ ctx ++ ("]"))
  , streamSpec := fun _ctx _q => { chunks := [("Hello "), (""), ("world")], failure := none } }

/-- A concrete registry mirroring the source: only `bedrock` is registered,
and it is also the configured default. -/
def svc0 : LLMProviderService :=
  { providers := [(("bedrock"), p0)], defaultProvider := ("bedrock") }

/-- A splitter outcome with two chunks (what the external text splitter
returns for a text longer than one chunk). -/
def splitTwo : String → List String := fun _ => [("chunk one"), ("chunk two")]

/-- A trivial embedding provider for ingestion fixtures. -/
def embed0 : String → List ℚ := fun _ => []

/-- A document whose metadata carries no `id`. -/
def docNoId : Doc := { pageContent := ("some document text"), metadata := {} }

/-- A document whose metadata carries the id `D1`. -/
def docWithId : Doc := { pageContent := ("some document text"), metadata := { id := some ("D1") } }

/-- First search hit of the specification scenario: raw score `0.9`. -/
def hitA : Hit := { content := ("A"), metadata := none, score := some (9 / 10) }

/-- Second search hit of the specification scenario: raw score `0.7`. -/
def hitB : Hit := { content := ("B"), metadata := none, score := some (7 / 10) }

/-- A search hit whose `_score` field is absent. -/
def hitNoScore : Hit := { content := ("C"), metadata := none, score := none }

/-! ## C1 and C10: score normalization -/

/-- Claim C1: `similaritySearchWithScore` returns one `(document, score)`
pair per index hit, at the same position as the hit (so in the native hit
order, without re-sorting), with the relevance score equal to `1` minus the
raw similarity score of that hit. -/
theorem similaritySearchWithScore_per_hit (hits : List Hit) (i : Nat) (hit : Hit)
    (h : hits[i]? = some hit) :
    (similaritySearchWithScore hits).length = hits.length ∧
    (similaritySearchWithScore hits)[i]? =
      some (⟨hit.content, hit.metadata.getD {}⟩, 1 - jsOr0 hit.score) := by
  constructor
  · simp [similaritySearchWithScore]
  · simp [similaritySearchWithScore, h]

/-- Claim C1 witness: the specification scenario, raw scores `[0.9, 0.7]`
for `k = 2` become relevance scores `[0.1, 0.3]` in that order. -/
theorem similaritySearchWithScore_per_hit_witness :
    (similaritySearchWithScore [hitA, hitB]).length = 2 ∧
    (similaritySearchWithScore [hitA, hitB])[0]? = some (⟨("A"), {}⟩, 1 / 10) ∧
    (similaritySearchWithScore [hitA, hitB])[1]? = some (⟨("B"), {}⟩, 3 / 10) := by
  have h0 := similaritySearchWithScore_per_hit [hitA, hitB] 0 hitA rfl
  have h1 := similaritySearchWithScore_per_hit [hitA, hitB] 1 hitB rfl
  refine ⟨h0.1, ?_, ?_⟩
  · rw [h0.2]
    norm_num [hitA, jsOr0]
  · rw [h1.2]
    norm_num [hitB, jsOr0]

/-- Claim C10: a hit whose raw score is absent or `0` is kept (the output
has an entry at its position) and is assigned the relevance score exactly
`1`, the worst value under the lower-is-better convention. -/
theorem absent_raw_score_scores_one (hits : List Hit) (i : Nat) (hit : Hit)
    (h : hits[i]? = some hit) (h0 : hit.score = none ∨ hit.score = some 0) :
    (similaritySearchWithScore hits)[i]? =
      some (⟨hit.content, hit.metadata.getD {}⟩, 1) := by
  simp only [similaritySearchWithScore, List.getElem?_map, h, Option.map_some]
  rcases h0 with h0 | h0 <;> simp [h0, jsOr0]

/-- Claim C10 witness: a hit with no `_score` gets relevance score `1`. -/
theorem absent_raw_score_scores_one_witness :
    (similaritySearchWithScore [hitNoScore])[0]? = some (⟨("C"), {}⟩, 1) :=
  absent_raw_score_scores_one [hitNoScore] 0 hitNoScore rfl (Or.inl rfl)

/-! ## C6: context block formatting -/

/-- Evaluation helper for the 3-decimal rendering of a nonnegative score. -/
theorem toFixed3_eval (q : ℚ) (m : Nat) (h1 : ¬q < 0)
    (h2 : ⌊|q| * 1000 + 1 / 2⌋ = (m : ℤ)) :
    toFixed3 q = toString (m / 1000) ++ (".") ++ pad3 (m % 1000) := by
  unfold toFixed3
  rw [h2, if_neg h1]
  simp

/-- Claim C6: on a non-empty result list, `formatContext` is the
concatenation, in result order, of one block per result of the form
`Source: {source} (Relevance: {score to 3 decimals})\n{chunkText}`, with
consecutive blocks separated by the delimiter `\n\n---\n\n`. -/
theorem formatContext_blocks (docs : List (Doc × ℚ)) (h : docs ≠ []) :
    formatContext docs = String.intercalate ("\n\n---\n\n") (docs.map contextBlock) := by
  unfold formatContext contextBlock
  rw [if_neg (by simpa using h)]

/-- Concrete retrieval results for the formatting witness. -/
def ctxDocs : List (Doc × ℚ) :=
  [ (⟨("alpha content"), { source := some ("otel.md") }⟩, 1 / 2)
  , (⟨("beta content"), {}⟩, 0) ]

/-- Claim C6 witness: two concrete results are rendered as two blocks, in
order, separated by the delimiter, with the scores to three decimals and a
missing source shown as `unknown`. -/
theorem formatContext_blocks_witness :
    formatContext ctxDocs =
      ("Source: otel.md (Relevance: 0.500)\nalpha content\n\n---\n\nSource: unknown (Relevance: 0.000)\nbeta content") := by
  have hf := formatContext_blocks ctxDocs (by simp [ctxDocs])
  have habs : |(1 : ℚ) / 2| = 1 / 2 := abs_of_nonneg (by norm_num)
  have t1 : toFixed3 ((1 : ℚ) / 2) = ("0.500") := by
    rw [toFixed3_eval ((1 : ℚ) / 2) 500 (by norm_num) (by rw [habs]; norm_num)]
    rfl
  have t0 : toFixed3 (0 : ℚ) = ("0.000") := by
    rw [toFixed3_eval 0 0 (by norm_num) (by norm_num)]
    rfl
  rw [hf]
  simp only [ctxDocs, List.map, contextBlock]
  rw [t1, t0]
  rfl

/-! ## C7: source extraction -/

/-- The truthy source of one retrieval result, if any (absent and empty
sources are falsy and are skipped by `extractSources`). -/
def sourceOf (p : Doc × ℚ) : Option String :=
  match p.1.metadata.source with
  | none => none
  | some s => if s = "" then none else some s

/-- Written from the specification: the ordered set of distinct
identifiers, keeping the first occurrence of each. -/
def distinctFirstSeen (l : List String) : List String :=
  l.foldl (fun acc s => if s ∈ acc then acc else acc ++ [s]) []

theorem foldl_insert_mem (l : List String) : ∀ (acc : List String) (s : String),
    (s ∈ l.foldl (fun acc s => if s ∈ acc then acc else acc ++ [s]) acc ↔
      s ∈ acc ∨ s ∈ l) := by
  induction l with
  | nil => simp
  | cons hd tl ih =>
    intro acc s
    simp only [List.foldl_cons]
    rw [ih]
    by_cases h : hd ∈ acc
    · rw [if_pos h]
      simp only [List.mem_cons]
      constructor
      · rintro (h1 | h1)
        · exact Or.inl h1
        · exact Or.inr (Or.inr h1)
      · rintro (h1 | rfl | h1)
        · exact Or.inl h1
        · exact Or.inl h
        · exact Or.inr h1
    · rw [if_neg h]
      simp only [List.mem_append, List.mem_cons, List.mem_singleton]
      tauto

theorem foldl_insert_nodup (l : List String) : ∀ acc : List String, acc.Nodup →
    (l.foldl (fun acc s => if s ∈ acc then acc else acc ++ [s]) acc).Nodup := by
  induction l with
  | nil => intro acc h; simpa using h
  | cons hd tl ih =>
    intro acc h
    simp only [List.foldl_cons]
    by_cases hm : hd ∈ acc
    · rw [if_pos hm]
      exact ih acc h
    · rw [if_neg hm]
      refine ih _ ?_
      rw [List.nodup_append]
      exact ⟨h, List.nodup_singleton hd, by simpa using hm⟩

theorem extractSources_eq_foldl (docs : List (Doc × ℚ)) : ∀ acc : List String,
    docs.foldl
      (fun acc p =>
        match p.1.metadata.source with
        | none => acc
        | some s => if s = "" then acc else if s ∈ acc then acc else acc ++ [s])
      acc
    = (docs.filterMap sourceOf).foldl (fun acc s => if s ∈ acc then acc else acc ++ [s]) acc := by
  induction docs with
  | nil => intro acc; rfl
  | cons hd tl ih =>
    intro acc
    rcases hsrc : hd.1.metadata.source with _ | s
    · simp only [List.foldl_cons, hsrc, List.filterMap_cons, sourceOf]
      exact ih acc
    · by_cases he : s = ""
      · subst he
        simp only [List.foldl_cons, hsrc, List.filterMap_cons, sourceOf, reduceIte]
        exact ih acc
      · simp only [List.foldl_cons, hsrc, List.filterMap_cons, sourceOf, if_neg he]
        exact ih _

/-- Claim C7: `extractSources` returns exactly the distinct truthy source
identifiers of the results, without duplicates, in order of first
appearance (it equals the first-seen deduplication of the sources in result
order). -/
theorem extractSources_spec (docs : List (Doc × ℚ)) :
    extractSources docs = distinctFirstSeen (docs.filterMap sourceOf) ∧
    (extractSources docs).Nodup ∧
    (∀ s, s ∈ extractSources docs ↔ s ∈ docs.filterMap sourceOf) := by
  have he : extractSources docs = distinctFirstSeen (docs.filterMap sourceOf) :=
    extractSources_eq_foldl docs []
  refine ⟨he, ?_, ?_⟩
  · rw [he]
    exact foldl_insert_nodup _ [] (by simp)
  · intro s
    rw [he]
    unfold distinctFirstSeen
    rw [foldl_insert_mem]
    simp

/-- Concrete results with a repeated source, a missing source and an empty
source, for the extraction witness. -/
def dupDocs : List (Doc × ℚ) :=
  [ (⟨("t1"), { source := some ("a") }⟩, 0)
  , (⟨("t2"), { source := some ("b") }⟩, 0)
  , (⟨("t3"), { source := some ("a") }⟩, 0)
  , (⟨("t4"), {}⟩, 0)
  , (⟨("t5"), { source := some ("") }⟩, 0) ]

/-- Claim C7 witness: the repeated source appears once, in first-seen
order; absent and empty sources are skipped. -/
theorem extractSources_spec_witness :
    extractSources dupDocs = [("a"), ("b")] := by
  rw [(extractSources_spec dupDocs).1]
  rfl

/-! ## C8, C9: provider lookup -/

theorem lookup_eq_none_of_not_mem (l : List (String × Provider)) (name : String)
    (h : name ∉ l.map Prod.fst) : l.lookup name = none := by
  induction l with
  | nil => rfl
  | cons hd tl ih =>
    obtain ⟨k, v⟩ := hd
    simp only [List.map_cons, List.mem_cons] at h
    push_neg at h
    have hk : (name == k) = false := by
      simp only [beq_eq_false_iff_ne, ne_eq]
      exact h.1
    simp [List.lookup, hk, ih h.2]

/-- Claim C8: looking up a provider name that is not registered throws a
configuration-style error naming the unknown provider and listing the
available ones, and a `generateResponse` call with such a name fails with
exactly that error (for every possible chat-model behaviour, i.e. before
any generation occurs). -/
theorem getProvider_unknown (svc : LLMProviderService) (name : String)
    (h : name ∉ getAvailableProviders svc) :
    getProvider svc (JsStr.str name) =
      Except.error (RagError.providerNotAvailable name (getAvailableProviders svc)) ∧
    ∀ (docs : List (Doc × ℚ)) (question : String),
      generateResponse svc (Except.ok docs) question (JsStr.str name) =
        Except.error (RagError.providerNotAvailable name (getAvailableProviders svc)) := by
  have hl : svc.providers.lookup name = none :=
    lookup_eq_none_of_not_mem svc.providers name h
  have h1 : getProvider svc (JsStr.str name) =
      Except.error (RagError.providerNotAvailable name (getAvailableProviders svc)) := by
    unfold getProvider
    simp [hl, JsStr.interp]
  refine ⟨h1, fun docs question => ?_⟩
  simp only [generateResponse, h1]

/-- Claim C8 witness: `openai` is not in the registry holding only
`bedrock`; both the lookup and a full generation call fail with the error
naming `openai` and listing `bedrock`. -/
theorem getProvider_unknown_witness :
    getProvider svc0 (JsStr.str ("openai")) =
      Except.error (RagError.providerNotAvailable ("openai") [("bedrock")]) ∧
    generateResponse svc0 (Except.ok []) ("hi") (JsStr.str ("openai")) =
      Except.error (RagError.providerNotAvailable ("openai") [("bedrock")]) := by
  have h := getProvider_unknown svc0 ("openai") (by decide)
  exact ⟨h.1, h.2 [] ("hi")⟩

/-- Claim C9: when the options do not specify a provider, `askQuestion`
passes the destructuring default `null` (not `undefined`) down to
`getProvider`, whose own default parameter therefore does not apply (it
applies to `undefined` only, as the first conjunct shows), so the call
fails with the provider-not-available error for the name `null` instead of
using the configured default provider. -/
theorem omitted_provider_is_null (svc : LLMProviderService) (p : Provider)
    (docs : List (Doc × ℚ)) (question : String) (options : AskOptions)
    (hdef : svc.providers.lookup svc.defaultProvider = some p)
    (hopt : options.provider = none) :
    getProvider svc JsStr.undef = Except.ok p ∧
    getProvider svc JsStr.null =
      Except.error (RagError.providerNotAvailable ("null") (getAvailableProviders svc)) ∧
    generateResponse svc (Except.ok docs) question JsStr.null =
      Except.error (RagError.providerNotAvailable ("null") (getAvailableProviders svc)) ∧
    askQuestion svc (Except.ok docs) question options =
      Except.error
        (("Failed to generate response: LLM provider \x27null\x27 not available. Available providers: ") ++
          String.intercalate (", ") (getAvailableProviders svc)) := by
  have h2 : getProvider svc JsStr.null =
      Except.error (RagError.providerNotAvailable ("null") (getAvailableProviders svc)) := rfl
  have h3 : generateResponse svc (Except.ok docs) question JsStr.null =
      Except.error (RagError.providerNotAvailable ("null") (getAvailableProviders svc)) := by
    simp only [generateResponse, h2]
  refine ⟨?_, h2, h3, ?_⟩
  · unfold getProvider
    simp [hdef]
  · simp only [askQuestion, hopt]
    simp only [h3]
    rfl

/-- Claim C9 witness: against the concrete registry (default `bedrock`,
which a lookup with `undefined` does give), an `askQuestion` call with
empty options is rejected with the error naming `null`. -/
theorem omitted_provider_is_null_witness :
    askQuestion svc0 (Except.ok []) ("q") {} =
      Except.error ("Failed to generate response: LLM provider \x27null\x27 not available. Available providers: bedrock") ∧
    getProvider svc0 JsStr.undef = Except.ok p0 := by
  have h := omitted_provider_is_null svc0 p0 [] ("q") {} rfl rfl
  refine ⟨?_, h.1⟩
  rw [h.2.2.2]
  rfl

/-! ## C4: empty retrieval degrades gracefully -/

/-- Claim C4: when the vector search returns zero results,
`generateResponse` completes without error (given a registered provider
whose invocation succeeds), the context handed to generation is the fixed
sentinel string, the sources list is empty, and the response is exactly
what the chat model produced from that sentinel context. -/
theorem emptyRetrieval_uses_sentinel (svc : LLMProviderService) (llm : Provider)
    (name question resp : String)
    (hprov : getProvider svc (JsStr.str name) = Except.ok llm)
    (hresp : llm.invoke ("No relevant context found in the knowledge base.") question =
      Except.ok resp) :
    formatContext [] = ("No relevant context found in the knowledge base.") ∧
    generateResponse svc (Except.ok []) question (JsStr.str name) =
      Except.ok { response := resp
                , documentsUsed := 0
                , sources := []
                , relevanceScores := []
                , question := question
                , provider := actualProviderName svc (JsStr.str name) } := by
  refine ⟨rfl, ?_⟩
  have hsent : formatContext ([] : List (Doc × ℚ)) =
      ("No relevant context found in the knowledge base.") := rfl
  simp only [generateResponse, hprov]
  rw [hsent, hresp]
  rfl

/-- Claim C4 witness: with the concrete registry and an empty search
result, the call completes and the concrete provider demonstrably received
the sentinel as its context. -/
theorem emptyRetrieval_uses_sentinel_witness :
    generateResponse svc0 (Except.ok []) ("q") (JsStr.str ("bedrock")) =
      Except.ok { response := ("ANSWER[No relevant context found in the knowledge base.]")
                , documentsUsed := 0
                , sources := []
                , relevanceScores := []
                , question := ("q")
                , provider := ("bedrock") } := by
  have h := (emptyRetrieval_uses_sentinel svc0 p0 ("bedrock") ("q")
      ("ANSWER[No relevant context found in the knowledge base.]") rfl rfl).2
  rw [h]
  rfl

/-! ## C3: streaming event sequence -/

theorem gsr_cases (svc : LLMProviderService) (search : Except RagError (List (Doc × ℚ)))
    (question : String) (pn : JsStr) :
    (∃ e, search = Except.error e ∧
      generateStreamingResponse svc search question pn = [StreamEvent.error e.message]) ∨
    (∃ docs e, search = Except.ok docs ∧ getProvider svc pn = Except.error e ∧
      generateStreamingResponse svc search question pn = [StreamEvent.error e.message]) ∨
    (∃ docs llm, search = Except.ok docs ∧ getProvider svc pn = Except.ok llm ∧
      generateStreamingResponse svc search question pn =
        StreamEvent.metadata docs.length (extractSources docs) (actualProviderName svc pn) ::
          ((llm.streamSpec (formatContext docs) question).chunks.filter
              (fun c => c != "")).map StreamEvent.content ++
          [match (llm.streamSpec (formatContext docs) question).failure with
            | some m => StreamEvent.error m
            | none =>
                StreamEvent.done
                  (((llm.streamSpec (formatContext docs) question).chunks.filter
                      (fun c => c != "")).map String.length).sum]) := by
  rcases search with e | docs
  · exact Or.inl ⟨e, rfl, rfl⟩
  · rcases hgp : getProvider svc pn with e | llm
    · refine Or.inr (Or.inl ⟨docs, e, rfl, rfl, ?_⟩)
      simp only [generateStreamingResponse, hgp]
    · refine Or.inr (Or.inr ⟨docs, llm, rfl, rfl, ?_⟩)
      simp only [generateStreamingResponse, hgp]

/-- Claim C3, amended, with the shape pinned in every case: the event
sequence of a streaming call always ends with exactly one terminal event
and no terminal event occurs earlier. When the retrieval step throws, the
sequence is the single terminal `error` event carrying the thrown message,
with no `metadata` event; when retrieval succeeds but the provider lookup
throws, likewise a single terminal `error` event. When both succeed, the
sequence is exactly one leading `metadata` event (document count, sources,
provider), then one `content` event per delivered non-empty fragment in
order, then one terminal event, which is `error` with the stream error
message whenever the model stream throws — never `done` — and `done` with
the summed fragment length when the stream completes. -/
theorem streaming_event_order (svc : LLMProviderService)
    (search : Except RagError (List (Doc × ℚ))) (question : String) (pn : JsStr) :
    (∃ e, (generateStreamingResponse svc search question pn).getLast? = some e ∧
      e.isTerminal = true) ∧
    (∀ e ∈ (generateStreamingResponse svc search question pn).dropLast,
      e.isTerminal = false) ∧
    (∀ e, search = Except.error e →
      generateStreamingResponse svc search question pn = [StreamEvent.error e.message]) ∧
    (∀ docs e, search = Except.ok docs → getProvider svc pn = Except.error e →
      generateStreamingResponse svc search question pn = [StreamEvent.error e.message]) ∧
    (∀ docs llm, search = Except.ok docs → getProvider svc pn = Except.ok llm →
      ∃ cs : List String,
        generateStreamingResponse svc search question pn =
          StreamEvent.metadata docs.length (extractSources docs) (actualProviderName svc pn) ::
            cs.map StreamEvent.content ++
            [match (llm.streamSpec (formatContext docs) question).failure with
              | some m => StreamEvent.error m
              | none => StreamEvent.done (cs.map String.length).sum]) := by
  rcases gsr_cases svc search question pn with
    ⟨e, hs, hq⟩ | ⟨docs, e, hs, hgp, hq⟩ | ⟨docs, llm, hs, hgp, hq⟩
  · subst hs
    refine ⟨⟨StreamEvent.error e.message, by rw [hq]; rfl, rfl⟩, ?_, ?_, ?_, ?_⟩
    · rw [hq]
      intro ev hev
      simp at hev
    · intro e' he'
      obtain rfl := Except.error.inj he'
      exact hq
    · intro docs e' h1 h2
      exact absurd h1 (by simp)
    · intro docs llm h1 h2
      exact absurd h1 (by simp)
  · refine ⟨⟨StreamEvent.error e.message, by rw [hq]; rfl, rfl⟩, ?_, ?_, ?_, ?_⟩
    · rw [hq]
      intro ev hev
      simp at hev
    · intro e' he'
      rw [hs] at he'
      exact absurd he' (by simp)
    · intro docs' e' h1 h2
      rw [hgp] at h2
      obtain rfl := Except.error.inj h2
      exact hq
    · intro docs' llm' h1 h2
      rw [hgp] at h2
      exact absurd h2 (by simp)
  · have hT : (match (llm.streamSpec (formatContext docs) question).failure with
        | some m => StreamEvent.error m
        | none =>
            StreamEvent.done
              (((llm.streamSpec (formatContext docs) question).chunks.filter
                  (fun c => c != "")).map String.length).sum).isTerminal = true := by
      rcases hfail : (llm.streamSpec (formatContext docs) question).failure with _ | m
      · rfl
      · rfl
    have hcons : generateStreamingResponse svc search question pn =
        (StreamEvent.metadata docs.length (extractSources docs) (actualProviderName svc pn) ::
          ((llm.streamSpec (formatContext docs) question).chunks.filter
              (fun c => c != "")).map StreamEvent.content) ++
          [match (llm.streamSpec (formatContext docs) question).failure with
            | some m => StreamEvent.error m
            | none =>
                StreamEvent.done
                  (((llm.streamSpec (formatContext docs) question).chunks.filter
                      (fun c => c != "")).map String.length).sum] := by
      rw [hq]
    refine ⟨⟨_, by rw [hcons]; exact List.getLast?_concat _, hT⟩, ?_, ?_, ?_, ?_⟩
    · rw [hcons, List.dropLast_concat]
      intro ev hev
      rcases List.mem_cons.mp hev with rfl | hev2
      · rfl
      · rcases List.mem_map.mp hev2 with ⟨c, _, rfl⟩
        rfl
    · intro e' he'
      rw [hs] at he'
      exact absurd he' (by simp)
    · intro docs' e' h1 h2
      rw [hgp] at h2
      exact absurd h2 (by simp)
    · intro docs' llm' h1 h2
      rw [hs] at h1
      rw [hgp] at h2
      obtain rfl := Except.ok.inj h1
      obtain rfl := Except.ok.inj h2
      exact ⟨(llm.streamSpec (formatContext docs) question).chunks.filter (fun c => c != ""), hq⟩

/-- Claim C3 counterexample: when the retrieval step throws, the emitted
sequence is a single terminal `error` event; it does not start with a
`metadata` event, contradicting the claim for the retrieval-failure case. -/
theorem streaming_no_metadata_on_search_failure :
    generateStreamingResponse svc0 (Except.error (RagError.searchError ("boom"))) ("q") JsStr.null
      = [StreamEvent.error ("boom")] ∧
    StreamEvent.isMetadata
      ((generateStreamingResponse svc0 (Except.error (RagError.searchError ("boom"))) ("q")
          JsStr.null).headD (StreamEvent.error (""))) = false := by
  exact ⟨rfl, rfl⟩

/-- Claim C3 witness: a successful concrete run yields exactly one leading
`metadata` event, the non-empty content fragments in order, and a terminal
`done` event counting the yielded characters. -/
theorem streaming_event_order_witness :
    generateStreamingResponse svc0 (Except.ok []) ("q") (JsStr.str ("bedrock")) =
      [ StreamEvent.metadata 0 [] ("bedrock")
      , StreamEvent.content ("Hello ")
      , StreamEvent.content ("world")
      , StreamEvent.done 11 ] := by
  have h := streaming_event_order svc0 (Except.ok []) ("q") (JsStr.str ("bedrock"))
  exact rfl

/-! ## C5: chunk record fields -/

theorem sublist_flatten_of_mem {α : Type} {l : List α} {L : List (List α)} (h : l ∈ L) :
    l.Sublist L.flatten := by
  induction L with
  | nil => simp at h
  | cons hd tl ih =>
    rw [List.flatten_cons]
    rcases List.mem_cons.mp h with rfl | h2
    · exact List.sublist_append_left _ _
    · exact (ih h2).trans (List.sublist_append_right _ _)

/-- Claim C5, amended: every chunk record of a document carries
`chunk_index` equal to its 0-based position (so the indices are contiguous
from `0` to `chunk_total - 1`), `chunk_total` equal to the number of chunks
of that document, its text being the chunk at that position, and the parent
metadata spread in; the records appear in the processed list of `addDocuments`.
The `document_id` is the same on every chunk of the document only when the
document metadata supplies a non-empty `id`; otherwise the fallback id
interpolates the chunk index and differs from chunk to chunk. -/
theorem chunkDocsFor_fields (split : String → List String) (now : Nat) (doc : Doc) :
    (chunkDocsFor split now doc).length = (split doc.pageContent).length ∧
    (∀ (i : Nat) (r : ChunkDoc), (chunkDocsFor split now doc)[i]? = some r →
      r.metadata.chunk_index = i ∧
      r.metadata.chunk_total = (split doc.pageContent).length ∧
      r.metadata.base = doc.metadata ∧
      (split doc.pageContent)[i]? = some r.pageContent) ∧
    (∀ s, doc.metadata.id = some s → s ≠ ("") →
      ∀ r ∈ chunkDocsFor split now doc, r.metadata.document_id = s) ∧
    (∀ docs : List Doc, doc ∈ docs →
      (chunkDocsFor split now doc).Sublist (processedDocsOf split now docs)) := by
  refine ⟨?_, ?_, ?_, ?_⟩
  · simp [chunkDocsFor, List.enum_length]
  · intro i r hr
    unfold chunkDocsFor at hr
    rw [List.getElem?_map, List.getElem?_enum] at hr
    rcases hc : (split doc.pageContent)[i]? with _ | c
    · rw [hc] at hr
      exact absurd hr (by simp)
    · rw [hc] at hr
      simp only [Option.map_some', Option.some.injEq] at hr
      subst hr
      exact ⟨rfl, rfl, rfl, rfl⟩
  · intro s hs hne r hr
    unfold chunkDocsFor at hr
    rcases List.mem_map.mp hr with ⟨p, _, rfl⟩
    simp only [hs]
    rw [if_neg hne]
  · intro docs hmem
    unfold processedDocsOf
    exact sublist_flatten_of_mem (List.mem_map_of_mem _ hmem)

/-- Claim C5 counterexample: a document whose metadata has no `id`,
split into two chunks, gets two different `document_id` values (the
fallback interpolates the chunk index), so the chunks of one document do
not share a `document_id` back-reference. -/
theorem chunk_document_id_not_shared_without_id :
    ((chunkDocsFor splitTwo 7 docNoId).map fun r => r.metadata.document_id)
      = [("doc-7-0"), ("doc-7-1")] ∧
    (("doc-7-0") : String) ≠ ("doc-7-1") := by
  exact ⟨rfl, by decide⟩

/-- Claim C5 witness: a document that supplies id `D1`, split into two
chunks, yields records with contiguous indices `0, 1`, totals `2, 2`, and
the shared `document_id` `D1`. -/
theorem chunkDocsFor_fields_witness :
    (chunkDocsFor splitTwo 7 docWithId).length = 2 ∧
    ((chunkDocsFor splitTwo 7 docWithId).map fun r => r.metadata.chunk_index) = [0, 1] ∧
    ((chunkDocsFor splitTwo 7 docWithId).map fun r => r.metadata.chunk_total) = [2, 2] ∧
    ((chunkDocsFor splitTwo 7 docWithId).map fun r => r.metadata.document_id)
      = [("D1"), ("D1")] := by
  have h := chunkDocsFor_fields splitTwo 7 docWithId
  refine ⟨?_, rfl, rfl, rfl⟩
  rw [h.1]
  rfl

/-! ## C2: partial-insert accounting -/

theorem bulkBodyOf_length (embed : String → List ℚ) (idx : String)
    (processed : List ChunkDoc) :
    (bulkBodyOf embed idx processed).length = 2 * processed.length := by
  induction processed with
  | nil => rfl
  | cons hd tl ih =>
    simp only [bulkBodyOf, List.map_cons, List.flatten_cons, List.length_append,
      List.length_cons, List.length_nil] at *
    omega

theorem erroredDocumentsOf_length_aux (body : List BulkLine) (items : List BulkItem) :
    ∀ n : Nat,
    ((items.enumFrom n).filterMap fun it =>
        match it.2.error with
        | some e => some (⟨it.2.status, e, body[it.1 * 2 + 1]?⟩ : ErroredDoc)
        | none => none).length
      = (items.filter fun it => it.error.isSome).length := by
  induction items with
  | nil => intro n; rfl
  | cons hd tl ih =>
    intro n
    rcases he : hd.error with _ | e
    · simp only [List.enumFrom, List.filterMap_cons, he, List.filter_cons, Option.isSome_none,
        Bool.false_eq_true, if_false]
      exact ih (n + 1)
    · simp only [List.enumFrom, List.filterMap_cons, he, List.filter_cons, Option.isSome_some,
        if_true, List.length_cons]
      rw [ih (n + 1)]

theorem erroredDocumentsOf_length (resp : BulkResponse) (body : List BulkLine) :
    (erroredDocumentsOf resp body).length
      = (resp.items.filter fun it => it.error.isSome).length := by
  unfold erroredDocumentsOf
  rw [show resp.items.enum = resp.items.enumFrom 0 from rfl]
  exact erroredDocumentsOf_length_aux body resp.items 0

/-- Claim C2, amended: `addDocuments` always returns the total number of
chunk records it produced, regardless of how many of them the bulk insert
server-rejected; when the bulk response flags errors, the rejected items
(one per response item carrying an error) are collected and handed to the
logger only, not reflected in the returned count. -/
theorem addDocuments_returns_all_chunks (split : String → List String) (now : Nat)
    (embed : String → List ℚ) (idx : String) (docs : List Doc) (resp : BulkResponse) :
    (addDocuments split now embed idx docs resp).returned
      = (processedDocsOf split now docs).length ∧
    ((processedDocsOf split now docs) ≠ [] → resp.errors = true →
      (addDocuments split now embed idx docs resp).loggedErrors
        = erroredDocumentsOf resp (bulkBodyOf embed idx (processedDocsOf split now docs)) ∧
      (addDocuments split now embed idx docs resp).loggedErrors.length
        = (resp.items.filter fun it => it.error.isSome).length) := by
  constructor
  · simp only [addDocuments]
    by_cases hb : 0 < (bulkBodyOf embed idx (processedDocsOf split now docs)).length
    · rw [if_pos hb]
    · rw [if_neg hb]
  · intro hne herr
    have hlen : 0 < (bulkBodyOf embed idx (processedDocsOf split now docs)).length := by
      rw [bulkBodyOf_length]
      have h0 : 0 < (processedDocsOf split now docs).length := List.length_pos.mpr hne
      omega
    have hlog : (addDocuments split now embed idx docs resp).loggedErrors
        = erroredDocumentsOf resp (bulkBodyOf embed idx (processedDocsOf split now docs)) := by
      simp only [addDocuments]
      rw [if_pos hlen]
      simp only [herr, eq_self_iff_true, if_true]
    refine ⟨hlog, ?_⟩
    rw [hlog]
    exact erroredDocumentsOf_length resp _

/-- Bulk response where the second of two records is server-rejected. -/
def respOneRejected : BulkResponse :=
  { errors := true
  , items := [ { status := 201, error := none }
             , { status := 400, error := some ("mapper_parsing_exception") } ] }

/-- Claim C2 counterexample: a batch of `M = 2` chunk records with `N = 1`
server-rejected still makes `addDocuments` return `2` (the full chunk
count, with the failed item only in the logged list), not `M - N = 1` as
the claim states. -/
theorem addDocuments_ignores_rejections_in_count :
    (addDocuments splitTwo 7 embed0 ("idx") [docNoId] respOneRejected).returned = 2 ∧
    (addDocuments splitTwo 7 embed0 ("idx") [docNoId] respOneRejected).loggedErrors.length = 1 ∧
    (2 : Nat) ≠ 2 - 1 := by
  exact ⟨rfl, rfl, by decide⟩

/-- Claim C2 witness: the amended accounting at a concrete batch: the
returned count is the full chunk count and exactly the one rejected item is
logged. -/
theorem addDocuments_returns_all_chunks_witness :
    (addDocuments splitTwo 7 embed0 ("idx") [docWithId] respOneRejected).returned = 2 ∧
    (addDocuments splitTwo 7 embed0 ("idx") [docWithId] respOneRejected).loggedErrors.length
      = 1 := by
  have h := addDocuments_returns_all_chunks splitTwo 7 embed0 ("idx") [docWithId] respOneRejected
  refine ⟨h.1.trans rfl, ?_⟩
  rw [(h.2 (by decide) rfl).2]
  rfl

end AiWorkshop
